import Mathlib

/-!
Verification development for the ReadRinex repository (C++ sources:
`include/ParseRinex.hpp`, `src/ParseRinex.cpp`, and two further revisions of
the same translation unit).  The C++ code is shallowly embedded: a file is a
list of text lines, `std::string` becomes `String` (internally `List Char`),
C++ `int` becomes `Int` with the stream-extraction overflow bound made
explicit, and `double` values extracted from text become exact decimals
(no arithmetic is ever performed on them by the source, they are only stored).
Stream extraction (`operator>>`) is modelled by explicit token functions on
the remaining character list, with a failed stream represented by `none`.
-/

namespace rinex

/-- C `isspace` on the default locale: space, tab, newline, vertical tab,
form feed, carriage return. -/
def isspaceCpp (c : Char) : Bool :=
  c = ' ' || c = '\t' || c = '\n' || c = '\x0b' || c = '\x0c' || c = '\r'

/-- C `isdigit`. -/
def isdigitCpp (c : Char) : Bool :=
  '0' ≤ c && c ≤ '9'

/-- C `isupper` (ASCII). -/
def isupperCpp (c : Char) : Bool :=
  'A' ≤ c && c ≤ 'Z'

/-- The whitespace set of `trim` in the source: `" \t\r\n"`. -/
def isTrimWs (c : Char) : Bool :=
  c = ' ' || c = '\t' || c = '\r' || c = '\n'

/-- Substring search on character lists: `s.find(pat) != std::string::npos`. -/
def hasInfixL : List Char → List Char → Bool
  | [], pat => pat.isEmpty
  | s@(_ :: rest), pat => pat.isPrefixOf s || hasInfixL rest pat

/-- `line.find(marker) != npos` on strings. -/
def hasInfixS (s pat : String) : Bool :=
  hasInfixL s.toList pat.toList

/-- Embeds `trim` (ParseRinex.cpp lines 29-34 and the identical inline copy in
include/ParseRinex.hpp): the substring from `find_first_not_of(" \t\r\n")` to
`find_last_not_of(" \t\r\n")` is exactly the list with the leading and the
trailing run of those characters removed; all-whitespace input gives `""`. -/
def trimL (s : List Char) : List Char :=
  ((s.dropWhile isTrimWs).reverse.dropWhile isTrimWs).reverse

/-- `std::string trim(const std::string&)` of the source. -/
def trim (s : String) : String :=
  String.mk (trimL s.toList)

/-- The scanning loop of `is_number` (ParseRinex.cpp lines 17-27), with its
running `dot`, `sign`, `digit` flags. -/
def is_number_go : List Char → Bool → Bool → Bool → Bool
  | [], _, _, digit => digit
  | c :: cs, dot, sign, digit =>
    if c = ' ' || c = '\t' then is_number_go cs dot sign digit
    else if c = '+' || c = '-' then
      if sign then false else is_number_go cs dot true digit
    else if c = '.' then
      if dot then false else is_number_go cs true sign digit
    else if ¬ isdigitCpp c && c ≠ 'E' && c ≠ 'e' then false
    else is_number_go cs dot sign true

/-- `bool is_number(const std::string&)` of the source. -/
def is_number (s : String) : Bool :=
  is_number_go s.toList false false false

/-- `bool is_rinex_v3(const std::string&)` (ParseRinex.cpp lines 36-42):
the line is at least 20 characters, holds the version marker, and the first
20 columns trim to a string starting with `3` or `4`. -/
def is_rinex_v3 (line : String) : Bool :=
  if line.toList.length ≥ 20 && hasInfixS line "RINEX VERSION / TYPE" then
    let v := trimL (line.toList.take 20)
    ¬ v.isEmpty && (v.headD '\x00' = '3' || v.headD '\x00' = '4')
  else false

/-- Whitespace tokenizer of `extract_obs_types_from_line`: split on runs of
`isspace` characters; the accumulator holds the current word reversed. -/
def splitWSAux : List Char → List Char → List (List Char)
  | [], acc => if acc.isEmpty then [] else [acc.reverse]
  | c :: cs, acc =>
    if isspaceCpp c then
      if acc.isEmpty then splitWSAux cs [] else acc.reverse :: splitWSAux cs []
    else splitWSAux cs (c :: acc)

/-- All whitespace-separated words of a character list. -/
def splitWSL (cs : List Char) : List (List Char) :=
  splitWSAux cs []

/-- `extract_obs_types_from_line` (ParseRinex.cpp lines 44-69): drop
`skip_chars` characters, split the remainder on whitespace, keep the words
whose length lies in `[min_len, max_len]` and whose first character occurs in
`valid_start`. -/
def extract_obs_types_from_line (line : String) (skip_chars min_len max_len : Nat)
    (valid_start : String := "CLDSPT") : List String :=
  ((splitWSL (line.toList.drop skip_chars)).filter
    (fun w => decide (min_len ≤ w.length) && decide (w.length ≤ max_len) &&
      valid_start.toList.contains (w.headD '\x00'))).map String.mk

/-- `bool is_gps_sat(const std::string&)` (include/ParseRinex.hpp lines
26-31): non-empty and first character `G` or a digit. -/
def is_gps_sat (sv : String) : Bool :=
  match sv.toList with
  | [] => false
  | c :: _ => c = 'G' || isdigitCpp c

/-- Digits to a natural number, most significant first. -/
def natOfDigits (ds : List Char) : Nat :=
  ds.foldl (fun a c => 10 * a + (c.toNat - 48)) 0

/-- `std::stoi`, base 10: skip `isspace`, optional sign, at least one digit;
`none` models the exception (`std::invalid_argument` when no digit follows the
optional sign, `std::out_of_range` when the value leaves the `int` range);
trailing characters after the digits are ignored. -/
def stoiPartial (s : String) : Option Int :=
  let cs := s.toList.dropWhile isspaceCpp
  let (neg, cs1) :=
    match cs with
    | '+' :: t => (false, t)
    | '-' :: t => (true, t)
    | _ => (false, cs)
  let ds := cs1.takeWhile isdigitCpp
  if ds.isEmpty then none
  else
    let n := natOfDigits ds
    if neg then
      if n > 2147483648 then none else some (-(n : Int))
    else
      if n > 2147483647 then none else some (n : Int)

/-- `normalize_sat_id` (ParseRinex.cpp lines 78-95): trim; keep `G`-prefixed
tokens; for a leading digit, `std::stoi` the leading integer and format it
with `snprintf(buf, 8, "G%02d", prn)` (zero-padded to two digits and, because
`buf` holds 8 bytes, truncated to 7 characters); on a `stoi` exception the
trimmed token is returned as-is; anything else is returned trimmed. -/
def normalize_sat_id (sv : String) : String :=
  let t := trim sv
  match t.toList with
  | [] => t
  | c :: _ =>
    if c = 'G' then t
    else if isdigitCpp c then
      match stoiPartial t with
      | none => t
      | some prn =>
        let ds := (Int.toNat prn).repr
        let padded := if Int.toNat prn < 10 then "0" ++ ds else ds
        String.mk (('G' :: padded.toList).take 7)
    else t

/-! ### Stream extraction model

`std::istringstream` extraction is modelled on the remaining character list.
A stream that has failed is `none`; extraction from a failed stream does
nothing (the C++ failbit is sticky) and a failed numeric extraction leaves the
C++11 target value at zero. -/

/-- `iss >> (std::string&)`: skip `isspace`, then the maximal non-whitespace
run; fails when nothing remains. -/
def readTokenS (cs : List Char) : Option (List Char × List Char) :=
  let cs1 := cs.dropWhile isspaceCpp
  let w := cs1.takeWhile (fun c => ¬ isspaceCpp c)
  if w.isEmpty then none else some (w, cs1.drop w.length)

/-- `iss >> (int&)`: skip `isspace`, optional sign, at least one digit; an
out-of-range value sets the failbit (modelled as `none`). -/
def readIntS (cs : List Char) : Option (Int × List Char) :=
  let cs1 := cs.dropWhile isspaceCpp
  let (neg, cs2) :=
    match cs1 with
    | '+' :: t => (false, t)
    | '-' :: t => (true, t)
    | _ => (false, cs1)
  let ds := cs2.takeWhile isdigitCpp
  if ds.isEmpty then none
  else
    let n := natOfDigits ds
    let rest := cs2.drop ds.length
    if neg then
      if n > 2147483648 then none else some (-(n : Int), rest)
    else
      if n > 2147483647 then none else some ((n : Int), rest)

/-- An extracted `double` value, kept exactly as the decimal it was read
from: the value is `num / 10 ^ scale`.  The source never computes with the
doubles it extracts — they are only stored in the epoch map — so an exact
proof-free representation is a faithful payload (rationals are avoided only
because their normalizing arithmetic does not reduce in the kernel). -/
structure DoubleVal where
  num : Int := 0
  scale : Nat := 0
deriving Repr, DecidableEq

/-- The rational a `DoubleVal` denotes (documentation only). -/
def DoubleVal.toRat (v : DoubleVal) : ℚ :=
  (v.num : ℚ) / ((10 : ℚ) ^ v.scale)

/-- Combine sign, integer digits, fraction digits and decimal exponent into
the exact value `sign * digits(ip).digits(fp) * 10 ^ e`. -/
def mkDoubleVal (neg : Bool) (ip fp : List Char) (e : Int) : DoubleVal :=
  let m : Int := (natOfDigits (ip ++ fp) : Int)
  let m := if neg then -m else m
  if e ≥ 0 then ⟨m * (10 : Int) ^ (Int.toNat e), fp.length⟩
  else ⟨m, fp.length + Int.toNat (-e)⟩

/-- `iss >> (double&)`: skip `isspace`, then the `strtod` decimal grammar
`[sign] digits [. digits] [e|E [sign] digits]` needing at least one mantissa
digit; an exponent letter not followed by a digit fails the whole
extraction. -/
def readDoubleS (cs : List Char) : Option (DoubleVal × List Char) :=
  let cs1 := cs.dropWhile isspaceCpp
  let (neg, cs2) :=
    match cs1 with
    | '+' :: t => (false, t)
    | '-' :: t => (true, t)
    | _ => (false, cs1)
  let ip := cs2.takeWhile isdigitCpp
  let cs3 := cs2.drop ip.length
  let (fp, cs4) :=
    match cs3 with
    | '.' :: t => (t.takeWhile isdigitCpp, t.drop (t.takeWhile isdigitCpp).length)
    | _ => ([], cs3)
  if ip.isEmpty && fp.isEmpty then none
  else
    match cs4 with
    | 'e' :: t =>
      match readExpTail t with
      | none => none
      | some (e, rest) => some (mkDoubleVal neg ip fp e, rest)
    | 'E' :: t =>
      match readExpTail t with
      | none => none
      | some (e, rest) => some (mkDoubleVal neg ip fp e, rest)
    | _ => some (mkDoubleVal neg ip fp 0, cs4)
where
  /-- Exponent digits after the `e`, with optional sign. -/
  readExpTail (t : List Char) : Option (Int × List Char) :=
    let (eneg, t1) :=
      match t with
      | '+' :: u => (false, u)
      | '-' :: u => (true, u)
      | _ => (false, t)
    let eds := t1.takeWhile isdigitCpp
    if eds.isEmpty then none
    else some (if eneg then -(natOfDigits eds : Int) else (natOfDigits eds : Int), t1.drop eds.length)

/-- `parse_obs_type_count` (ParseRinex.cpp lines 97-109): read two tokens; a
single uppercase first token selects the RINEX3 shape (count in the second
token), otherwise the first token is the count; a token failing `is_number`
gives `-1`.  `none` models the uncaught `std::stoi` exception (reachable when
`is_number` accepts a token `std::stoi` cannot convert, such as `".5"`). -/
def parse_obs_type_count (line : String) : Option Int :=
  let pr : String × String :=
    match readTokenS line.toList with
    | none => ("", "")
    | some (w1, r) =>
      match readTokenS r with
      | none => (String.mk w1, "")
      | some (w2, _) => (String.mk w1, String.mk w2)
  if pr.1.toList.length = 1 && isupperCpp (pr.1.toList.headD '\x00') then
    if is_number pr.2 then stoiPartial pr.2 else some (-1)
  else if is_number pr.1 then stoiPartial pr.1 else some (-1)

/-! ### Data model (part_000 header: `ObsEpoch`, `RinexObs`, `ParseRinexError`) -/

/-- One observation epoch (part_000 lines 13-23).  `sat_L1L2` embeds the
`std::unordered_map<std::string, std::pair<double,double>>` as an association
list with `operator[]` overwrite semantics; only its key set and size are
observable in the claims, which hashing does not affect. -/
structure ObsEpoch where
  year : Int := 0
  month : Int := 0
  day : Int := 0
  hour : Int := 0
  minute : Int := 0
  second : DoubleVal := {}
  event_flag : Int := 0
  num_sv : Int := 0
  sat_L1L2 : List (String × DoubleVal × DoubleVal) := []
deriving Repr, DecidableEq

/-- The parser output record (part_000 lines 27-31). -/
structure RinexObs where
  is_v3 : Bool := false
  obs_types : List String := []
  epochs : List ObsEpoch := []
deriving Repr, DecidableEq

/-- Error kinds of part_000 lines 36-43. -/
inductive ParseRinexError where
  | Success
  | FileNotFound
  | MissingHeader
  | InvalidObsTypeCount
  | IncompatibleObsTypes
  | NoEpochs
deriving Repr, DecidableEq

/-- `m[k] = v` on the association list: overwrite in place, else append. -/
def mapStore (m : List (String × DoubleVal × DoubleVal)) (k : String)
    (v : DoubleVal × DoubleVal) : List (String × DoubleVal × DoubleVal) :=
  match m with
  | [] => [(k, v)]
  | (k0, v0) :: t => if k0 = k then (k0, v) :: t else (k0, v0) :: mapStore t k v

/-- Key membership in the epoch map. -/
def mapHasKey (m : List (String × DoubleVal × DoubleVal)) (k : String) : Bool :=
  m.any (fun p => p.1 = k)

/-! ### Header phase (ParseRinex.cpp lines 111-211) -/

/-- The header-loop accumulator variables of ParseRinex.cpp lines 119-124
(`eoh_found` is the loop exit flag, carried by `HeaderOut.done`). -/
structure HeaderSt where
  version_found : Bool := false
  obs_type_line_found : Bool := false
  is_v3 : Bool := false
  version_line : String := ""
  obs_type_line : String := ""
  obs_types : List String := []
  obs_type_count : Int := 0
deriving Repr, DecidableEq

/-- Outcome of the header loop: `crash` is the uncaught `std::stoi` exception
inside `parse_obs_type_count`, `abort` the in-loop `return false` on a
non-positive declared count, `done st eoh rest` a completed loop (`eoh` true
when the loop left through the `END OF HEADER` break) with the unread lines. -/
inductive HeaderOut where
  | crash : HeaderOut
  | abort : HeaderOut
  | done : HeaderSt → Bool → List String → HeaderOut
deriving Repr, DecidableEq

/-- The push-and-break loop over extracted tokens (ParseRinex.cpp lines
149-153 and the analogous v2/continuation copies): push each trimmed
non-empty token, stop as soon as the list size equals the declared count. -/
def addTypes : List String → Int → List String → List String
  | acc, _, [] => acc
  | acc, cnt, t :: ts =>
    let tt := trim t
    let acc1 := if tt = "" then acc else acc ++ [tt]
    if (acc1.length : Int) = cnt then acc1 else addTypes acc1 cnt ts

/-- v3 continuation lines (ParseRinex.cpp lines 156-166): while the type list
is short of the count, read a line; a line without the `SYS / # / OBS TYPES`
marker is consumed and ends the loop; otherwise its tokens (from column 0,
length 3-4) are added. -/
def collectV3 (lines : List String) (types : List String) (cnt : Int) :
    List String × List String :=
  if (types.length : Int) < cnt then
    match lines with
    | [] => (types, [])
    | l2 :: rest =>
      if hasInfixS l2 "SYS / # / OBS TYPES" then
        collectV3 rest (addTypes types cnt (extract_obs_types_from_line l2 0 3 4)) cnt
      else (types, rest)
  else (types, lines)

/-- v2 continuation lines (ParseRinex.cpp lines 184-193): same, but any line
is accepted and tokens use length 2-3. -/
def collectV2 (lines : List String) (types : List String) (cnt : Int) :
    List String × List String :=
  if (types.length : Int) < cnt then
    match lines with
    | [] => (types, [])
    | l2 :: rest =>
      collectV2 rest (addTypes types cnt (extract_obs_types_from_line l2 0 2 3)) cnt
  else (types, lines)

/-- The `SYS / # / OBS TYPES` block of the header loop (ParseRinex.cpp lines
137-167).  `inl` aborts the whole parse; `inr (st, rest, cont)` continues,
with `cont = true` for the `continue` taken when the leading system letter is
not `G` (which skips the v2 and end-of-header checks on this line). -/
def v3Block (line : String) (st : HeaderSt) (rest : List String) :
    HeaderOut ⊕ (HeaderSt × List String × Bool) :=
  if hasInfixS line "SYS / # / OBS TYPES" then
    let st := { st with obs_type_line_found := true, obs_type_line := line }
    if line.toList.headD '\x00' ≠ 'G' then .inr (st, rest, true)
    else
      match parse_obs_type_count line with
      | none => .inl .crash
      | some cnt =>
        if cnt ≤ 0 then .inl .abort
        else
          let types := addTypes st.obs_types cnt (extract_obs_types_from_line line 7 3 4)
          let pr := collectV3 rest types cnt
          .inr ({ st with obs_types := pr.1, obs_type_count := cnt }, pr.2, false)
  else .inr (st, rest, false)

/-- The `# / TYPES OF OBSERV` block of the header loop (ParseRinex.cpp lines
170-194). -/
def v2Block (line : String) (st : HeaderSt) (rest : List String) :
    HeaderOut ⊕ (HeaderSt × List String) :=
  if hasInfixS line "# / TYPES OF OBSERV" then
    let st := { st with obs_type_line_found := true, obs_type_line := line }
    match parse_obs_type_count line with
    | none => .inl .crash
    | some cnt =>
      if cnt ≤ 0 then .inl .abort
      else
        let types := addTypes st.obs_types cnt (extract_obs_types_from_line line 6 2 3)
        let pr := collectV2 rest types cnt
        .inr ({ st with obs_types := pr.1, obs_type_count := cnt }, pr.2)
  else .inr (st, rest)

/-- The header loop of ParseRinex.cpp lines 127-201: each line is trimmed,
checked for the version marker, then run through the v3 block, the v2 block
and the end-of-header check.  The fuel counts loop iterations; every
iteration consumes at least the one line it read, so the line count is always
enough fuel (the zero-fuel fallback on a non-empty list is unreachable from
the entry point). -/
def headerLoopF : Nat → List String → HeaderSt → HeaderOut
  | _, [], st => .done st false []
  | 0, _ :: _, st => .done st false []
  | fuel + 1, raw :: rest, st =>
    let line := trim raw
    let st :=
      if hasInfixS line "RINEX VERSION / TYPE" then
        { st with version_found := true, version_line := line, is_v3 := is_rinex_v3 line }
      else st
    match v3Block line st rest with
    | .inl r => r
    | .inr (st1, rest1, cont) =>
      if cont then headerLoopF fuel rest1 st1
      else
        match v2Block line st1 rest1 with
        | .inl r => r
        | .inr (st2, rest2) =>
          if hasInfixS line "END OF HEADER" then .done st2 true rest2
          else headerLoopF fuel rest2 st2

/-! ### Data phase (ParseRinex.cpp lines 213-328) -/

/-- The data-phase loop variables of ParseRinex.cpp lines 214-219, plus the
epoch list being appended to (`out.epochs`). -/
structure DataState where
  current_epoch : ObsEpoch := {}
  sv_ids : List String := []
  svs_remaining : Int := 0
  obs_lines_remaining : Int := 0
  in_epoch : Bool := false
  epochs : List ObsEpoch := []
deriving Repr, DecidableEq

/-- The eight epoch-header fields read by both machines
(`year month day hour minute second event_flag num_sv`). -/
structure EpochFields where
  year : Int
  month : Int
  day : Int
  hour : Int
  minute : Int
  second : DoubleVal
  event_flag : Int
  num_sv : Int
deriving Repr, DecidableEq

/-- `iss >> year >> month >> day >> hour >> minute >> second >> event_flag
>> num_sv`, failing as a whole when any extraction fails, and returning the
unread remainder of the stream (the v2 machine reads trailing satellite
tokens from it). -/
def parseEpochFields (cs : List Char) : Option (EpochFields × List Char) := do
  let (y, r1) ← readIntS cs
  let (mo, r2) ← readIntS r1
  let (d, r3) ← readIntS r2
  let (h, r4) ← readIntS r3
  let (mi, r5) ← readIntS r4
  let (sec, r6) ← readDoubleS r5
  let (ev, r7) ← readIntS r6
  let (n, r8) ← readIntS r7
  pure (⟨y, mo, d, h, mi, sec, ev, n⟩, r8)

/-- The per-satellite value loop (ParseRinex.cpp lines 258-263 and 308-313):
for each declared observation type extract one double; a failed extraction
leaves the C++11 value at `0.0` and the failbit makes every later extraction
fail too. -/
def readObsVals : Option (List Char) → Nat → List DoubleVal × Option (List Char)
  | s, 0 => ([], s)
  | none, k + 1 =>
    let pr := readObsVals none k
    ({} :: pr.1, pr.2)
  | some cs, k + 1 =>
    match readDoubleS cs with
    | none =>
      let pr := readObsVals none k
      ({} :: pr.1, pr.2)
    | some (v, r) =>
      let pr := readObsVals (some r) k
      (v :: pr.1, pr.2)

/-- The satellite identifier a v3 data row stores under: the first
whitespace-delimited token of the (trimmed) line (empty when the line has no
token), normalized. -/
def rowSvId (line : String) : String :=
  match readTokenS line.toList with
  | none => normalize_sat_id ""
  | some (w, _) => normalize_sat_id (String.mk w)

/-- One v3 satellite data row (ParseRinex.cpp lines 251-274): read the
identifier token, normalize it, read one value per observation type, store
`(L1, L2)` under the identifier, decrement the remaining count and append the
epoch when it reaches zero. -/
def v3RowStep (ots : List String) (line : String) (st : DataState) : DataState :=
  let pr : String × Option (List Char) :=
    match readTokenS line.toList with
    | none => ("", none)
    | some (w, r) => (String.mk w, some r)
  let sv_id := normalize_sat_id pr.1
  let vals := (readObsVals pr.2 ots.length).1
  let l1 : DoubleVal := if vals.length > 0 then vals.headD {} else {}
  let l2 : DoubleVal := if vals.length > 1 then vals.getD 1 {} else {}
  let ce := { st.current_epoch with sat_L1L2 := mapStore st.current_epoch.sat_L1L2 sv_id (l1, l2) }
  let rem := st.svs_remaining - 1
  if rem = 0 then
    { st with current_epoch := ce, svs_remaining := rem, in_epoch := false,
              epochs := st.epochs ++ [ce] }
  else { st with current_epoch := ce, svs_remaining := rem }

/-- One v2 satellite data row (ParseRinex.cpp lines 306-326): read one value
per observation type, look the identifier up positionally at
`sv_ids[sv_ids.size() - obs_lines_remaining]` (the out-of-bounds access that
claim C8 is about is modelled by `getD` with an empty-string default),
normalize it, store, decrement, append at zero. -/
def v2RowStep (ots : List String) (line : String) (st : DataState) : DataState :=
  let vals := (readObsVals (some line.toList) ots.length).1
  let l1 : DoubleVal := if vals.length > 0 then vals.headD {} else {}
  let l2 : DoubleVal := if vals.length > 1 then vals.getD 1 {} else {}
  let idx := st.sv_ids.length - st.obs_lines_remaining.toNat
  let sv_id := normalize_sat_id (st.sv_ids.getD idx "")
  let ce := { st.current_epoch with sat_L1L2 := mapStore st.current_epoch.sat_L1L2 sv_id (l1, l2) }
  let rem := st.obs_lines_remaining - 1
  if rem = 0 then
    { st with current_epoch := ce, obs_lines_remaining := rem, in_epoch := false,
              epochs := st.epochs ++ [ce] }
  else { st with current_epoch := ce, obs_lines_remaining := rem }

/-- The v2 identifier collection (ParseRinex.cpp lines 296-301): while fewer
tokens than the declared satellite count were collected, read a line, trim
it, and push all its whitespace-delimited tokens. -/
def collectSvIds (lines : List String) (ids : List String) (nsv : Int) :
    List String × List String :=
  if (ids.length : Int) < nsv then
    match lines with
    | [] => (ids, [])
    | l :: rest =>
      collectSvIds rest (ids ++ (splitWSL (trim l).toList).map String.mk) nsv
  else (ids, lines)

/-- The data-section loop of ParseRinex.cpp lines 222-328.  Each line is
trimmed and empty lines are skipped; the v3 machine recognizes `>` epoch
headers (a failed parse is silently discarded) and satellite rows; the v2
machine first tries the eight-field epoch-header grammar (collecting the
identifier tokens from the header line and continuation lines), then consumes
satellite rows.  The fuel counts loop iterations, always covered by the line
count. -/
def dataLoopF (is_v3 : Bool) (ots : List String) : Nat → List String → DataState → DataState
  | _, [], st => st
  | 0, _ :: _, st => st
  | fuel + 1, raw :: rest, st =>
    let line := trim raw
    if line = "" then dataLoopF is_v3 ots fuel rest st
    else if is_v3 then
      if line.toList.headD '\x00' = '>' then
        match parseEpochFields (line.toList.drop 1) with
        | none => dataLoopF is_v3 ots fuel rest st
        | some (f, _) =>
          dataLoopF is_v3 ots fuel rest
            { st with
              current_epoch :=
                { year := f.year, month := f.month, day := f.day, hour := f.hour,
                  minute := f.minute, second := f.second, event_flag := f.event_flag,
                  num_sv := f.num_sv, sat_L1L2 := [] },
              svs_remaining := f.num_sv, in_epoch := true }
      else if st.in_epoch ∧ st.svs_remaining > 0 then
        dataLoopF is_v3 ots fuel rest (v3RowStep ots line st)
      else dataLoopF is_v3 ots fuel rest st
    else
      match parseEpochFields line.toList with
      | some (f, remChars) =>
        let ids0 := (splitWSL remChars).map String.mk
        let pr := collectSvIds rest ids0 f.num_sv
        dataLoopF is_v3 ots fuel pr.2
          { st with
            current_epoch :=
              { year := f.year, month := f.month, day := f.day, hour := f.hour,
                minute := f.minute, second := f.second, event_flag := f.event_flag,
                num_sv := f.num_sv, sat_L1L2 := [] },
            sv_ids := pr.1, obs_lines_remaining := f.num_sv, in_epoch := true }
      | none =>
        if st.in_epoch ∧ st.obs_lines_remaining > 0 then
          dataLoopF is_v3 ots fuel rest (v2RowStep ots line st)
        else dataLoopF is_v3 ots fuel rest st

/-- `bool parse_rinex_obs(const std::string&, RinexObs&)` of ParseRinex.cpp
lines 111-331, over the line sequence of the already-opened file (the
cannot-open path at line 115 is outside the line-sequence model).  `out` is
the caller's record passed by reference; the result pairs the returned `bool`
with the record as the caller sees it afterwards.  `none` models the uncaught
`std::stoi` exception inside `parse_obs_type_count`. -/
def parse_rinex_obs (lines : List String) (out : RinexObs) : Option (Bool × RinexObs) :=
  match headerLoopF lines.length lines {} with
  | .crash => none
  | .abort => some (false, out)
  | .done st eoh rest =>
    if eoh = false ∨ st.version_found = false ∨ st.obs_type_line_found = false ∨
        st.obs_type_count ≤ 0 ∨ (st.obs_types.length : Int) ≠ st.obs_type_count then
      some (false, out)
    else
      let out1 := { out with is_v3 := st.is_v3, obs_types := st.obs_types }
      let fin := dataLoopF st.is_v3 st.obs_types rest.length rest { epochs := out1.epochs }
      let out2 := { out1 with epochs := fin.epochs }
      if out2.epochs = [] then some (false, out2) else some (true, out2)

/-- Modelled from the spec: part_000 line 45 declares
`ParseRinexError parse_rinex_obs(const std::string&, rinex::RinexObs&)` but
its implementation is not under src/; this variant attaches the error kinds
of spec section 7 (and the part_000 enum) to the failure sites of the
ParseRinex.cpp implementation: the in-loop abort and the header validation of
lines 204-209 split into missing-header (flags) versus invalid-type-count
(count non-positive or count-size mismatch) per the spec taxonomy, and the
empty-result failure of line 329 is the distinct no-epochs kind. -/
def parse_rinex_obs_err (lines : List String) (out : RinexObs) :
    Option (ParseRinexError × RinexObs) :=
  match headerLoopF lines.length lines {} with
  | .crash => none
  | .abort => some (.InvalidObsTypeCount, out)
  | .done st eoh rest =>
    if eoh = false ∨ st.version_found = false ∨ st.obs_type_line_found = false then
      some (.MissingHeader, out)
    else if st.obs_type_count ≤ 0 ∨ (st.obs_types.length : Int) ≠ st.obs_type_count then
      some (.InvalidObsTypeCount, out)
    else
      let out1 := { out with is_v3 := st.is_v3, obs_types := st.obs_types }
      let fin := dataLoopF st.is_v3 st.obs_types rest.length rest { epochs := out1.epochs }
      let out2 := { out1 with epochs := fin.epochs }
      if out2.epochs = [] then some (.NoEpochs, out2) else some (.Success, out2)

end rinex

/-! ### The part_001 revision

`src/unnamed/part_001` is an earlier revision of the same translation unit:
global-namespace, paired with `include/ParseRinex.hpp` (whose `ObsEpoch` only
holds the satellite map), with the header phase only (its data section is the
placeholder comment before `return true`).  Its header loop does not trim
lines, and its post-loop validation is a sequence of distinct checks with
`std::cerr` messages, starting with the version/obs-type-line style
disagreement check that ParseRinex.cpp does not have.  The `cerr` output is
modelled as the list of emitted messages. -/

namespace Part001

/-- `ObsEpoch` of include/ParseRinex.hpp lines 11-13 (satellite map only). -/
structure ObsEpoch where
  sat_L1L2 : List (String × rinex.DoubleVal × rinex.DoubleVal) := []
deriving Repr, DecidableEq

/-- `RinexObs` of include/ParseRinex.hpp lines 17-21. -/
structure RinexObs where
  is_v3 : Bool := false
  obs_types : List String := []
  epochs : List ObsEpoch := []
deriving Repr, DecidableEq

/-- Header-loop outcome for part_001: `crash` the uncaught `std::stoi`
exception, `abortMsg` the in-loop `return false` with its `cerr` message,
`done st eoh rest` a completed loop (`eoh` records whether the
`END OF HEADER` break was taken). -/
inductive HeaderOut where
  | crash : HeaderOut
  | abortMsg : String → HeaderOut
  | done : rinex.HeaderSt → Bool → List String → HeaderOut
deriving Repr, DecidableEq

/-- The `SYS / # / OBS TYPES` block of part_001 lines 54-81: identical to the
ParseRinex.cpp block, on the untrimmed line, with the invalid-count abort
carrying its message. -/
def v3Block (line : String) (st : rinex.HeaderSt) (rest : List String) :
    HeaderOut ⊕ (rinex.HeaderSt × List String × Bool) :=
  if rinex.hasInfixS line "SYS / # / OBS TYPES" then
    let st := { st with obs_type_line_found := true, obs_type_line := line }
    if line.toList.headD '\x00' ≠ 'G' then .inr (st, rest, true)
    else
      match rinex.parse_obs_type_count line with
      | none => .inl .crash
      | some cnt =>
        if cnt ≤ 0 then
          .inl (.abortMsg ("Error: Invalid observation type count (" ++ toString cnt ++
            ") in header."))
        else
          let types := rinex.addTypes st.obs_types cnt (rinex.extract_obs_types_from_line line 7 3 4)
          let pr := rinex.collectV3 rest types cnt
          .inr ({ st with obs_types := pr.1, obs_type_count := cnt }, pr.2, false)
  else .inr (st, rest, false)

/-- The `# / TYPES OF OBSERV` block of part_001 lines 82-106. -/
def v2Block (line : String) (st : rinex.HeaderSt) (rest : List String) :
    HeaderOut ⊕ (rinex.HeaderSt × List String) :=
  if rinex.hasInfixS line "# / TYPES OF OBSERV" then
    let st := { st with obs_type_line_found := true, obs_type_line := line }
    match rinex.parse_obs_type_count line with
    | none => .inl .crash
    | some cnt =>
      if cnt ≤ 0 then
        .inl (.abortMsg ("Error: Invalid observation type count (" ++ toString cnt ++
          ") in header."))
      else
        let types := rinex.addTypes st.obs_types cnt (rinex.extract_obs_types_from_line line 6 2 3)
        let pr := rinex.collectV2 rest types cnt
        .inr ({ st with obs_types := pr.1, obs_type_count := cnt }, pr.2)
  else .inr (st, rest)

/-- The header loop of part_001 lines 48-111 (no trimming of the line). -/
def headerLoopP : Nat → List String → rinex.HeaderSt → HeaderOut
  | _, [], st => .done st false []
  | 0, _ :: _, st => .done st false []
  | fuel + 1, line :: rest, st =>
    let st :=
      if rinex.hasInfixS line "RINEX VERSION / TYPE" then
        { st with version_found := true, version_line := line, is_v3 := rinex.is_rinex_v3 line }
      else st
    match v3Block line st rest with
    | .inl r => r
    | .inr (st1, rest1, cont) =>
      if cont then headerLoopP fuel rest1 st1
      else
        match v2Block line st1 rest1 with
        | .inl r => r
        | .inr (st2, rest2) =>
          if rinex.hasInfixS line "END OF HEADER" then .done st2 true rest2
          else headerLoopP fuel rest2 st2

/-- The RINEX3-style suffix test of part_001 line 140: length at least 3 and
last character one of `C W P S X`. -/
def v3StyleType (t : String) : Bool :=
  decide (t.toList.length ≥ 3) &&
    (let c := t.toList.getLastD '\x00'
     c = 'C' || c = 'W' || c = 'P' || c = 'S' || c = 'X')

/-- The legacy v2 code test of part_001 line 149. -/
def v2LegacyType (t : String) : Bool :=
  t = "C1" || t = "L1" || t = "S1" || t = "C2" || t = "L2" || t = "S2"

/-- `bool parse_rinex_obs(const std::string&, RinexObs&)` of part_001 lines
29-162: header loop, then the validation ladder of lines 113-154 in order
(style disagreement, missing lines, non-positive count, no types, count
mismatch, cross-version contamination), then the assignment to `out`; the
data section of this revision is not implemented, so success returns right
after the header.  The result carries the returned `bool`, the caller's
record and the emitted `cerr` messages; `none` models the `std::stoi`
exception. -/
def parse_rinex_obs (lines : List String) (out : RinexObs) :
    Option (Bool × RinexObs × List String) :=
  match headerLoopP lines.length lines {} with
  | .crash => none
  | .abortMsg m => some (false, out, [m])
  | .done st _ _ =>
    if (st.is_v3 = true ∧ rinex.hasInfixS st.obs_type_line "SYS / # / OBS TYPES" = false) ∨
       (st.is_v3 = false ∧ rinex.hasInfixS st.obs_type_line "# / TYPES OF OBSERV" = false) then
      some (false, out, ["Error: Version and obs type line format disagree."])
    else if st.version_found = false ∨ st.obs_type_line_found = false then
      some (false, out, ["Error: Missing version or obs type line in header."])
    else if st.obs_type_count ≤ 0 then
      some (false, out, ["Error: Obs type count is zero or negative."])
    else if st.obs_types.length = 0 then
      some (false, out, ["Error: No obs types parsed from header."])
    else if (st.obs_types.length : Int) ≠ st.obs_type_count then
      some (false, out, ["Error: Obs type count mismatch."])
    else
      match (if st.is_v3 = false ∧ rinex.hasInfixS st.obs_type_line "# / TYPES OF OBSERV" = true
             then st.obs_types.find? v3StyleType else none) with
      | some t =>
        some (false, out, ["Error: RINEX2 header contains RINEX3-style obs type " ++ t ++ "."])
      | none =>
        match (if st.is_v3 = true ∧ rinex.hasInfixS st.obs_type_line "SYS / # / OBS TYPES" = true
               then st.obs_types.find? v2LegacyType else none) with
        | some t =>
          some (false, out, ["Error: RINEX3 header contains RINEX2-style obs type " ++ t ++ "."])
        | none => some (true, { out with is_v3 := st.is_v3, obs_types := st.obs_types }, [])

end Part001

/-! ### Specification predicates and instrumentation -/

namespace rinex

/-- Character set the claim C9 allows in a numeric token. -/
def isNumAllowedChar (c : Char) : Bool :=
  isdigitCpp c || c = '+' || c = '-' || c = '.' || c = 'e' || c = 'E' || c = ' ' || c = '\t'

/-- The predicate of claim C9, following the spec words: ignoring spaces and
tabs, at most one sign character, at most one decimal point, at least one
digit, and only characters from the allowed set. -/
def is_number_claim (s : String) : Bool :=
  let cs := s.toList.filter (fun c => ¬ (c = ' ' || c = '\t'))
  decide (cs.countP (fun c => c = '+' || c = '-') ≤ 1) &&
  decide (cs.countP (fun c => c = '.') ≤ 1) &&
  cs.all isNumAllowedChar &&
  cs.any isdigitCpp

/-- The claim C9 predicate with the one amendment the code forces: the
"at least one digit" requirement becomes "at least one digit or exponent
letter", because the scan of `is_number` sets its `digit` flag on `e`/`E`
as well as on digits. -/
def is_number_claim_amended (s : String) : Bool :=
  let cs := s.toList.filter (fun c => ¬ (c = ' ' || c = '\t'))
  decide (cs.countP (fun c => c = '+' || c = '-') ≤ 1) &&
  decide (cs.countP (fun c => c = '.') ≤ 1) &&
  cs.all isNumAllowedChar &&
  cs.any (fun c => isdigitCpp c || c = 'e' || c = 'E')

/-- The invariant of claim C7 on an appended epoch: a non-empty satellite
map of size at most the declared satellite count, which is positive. -/
def epochOK (e : ObsEpoch) : Prop :=
  e.sat_L1L2 ≠ [] ∧ 1 ≤ e.num_sv ∧ (e.sat_L1L2.length : Int) ≤ e.num_sv

/-- The data-phase loop invariant shared by the v3 and v2 machines: while an
epoch is open, the rows consumed so far bound the map size by the declared
count minus the remaining count. -/
def dataInv (is_v3 : Bool) (st : DataState) : Prop :=
  st.in_epoch = true →
    (st.current_epoch.sat_L1L2.length : Int) ≤
      st.current_epoch.num_sv - (if is_v3 then st.svs_remaining else st.obs_lines_remaining)

/-- One row-consumption event of the v2 machine (claim C8): the identifier
list length, the remaining-line counter and the declared satellite count at
the moment `sv_ids[sv_ids.size() - obs_lines_remaining]` is evaluated. -/
structure V2Row where
  svLen : Nat
  rem : Int
  num_sv : Int
deriving Repr, DecidableEq

/-- The v2 data-section machine of `dataLoopF` (its `is_v3 = false` branch),
instrumented to record every row-consumption event; its first component is
proved to coincide with `dataLoopF false`. -/
def v2LoopTr (ots : List String) : Nat → List String → DataState → DataState × List V2Row
  | _, [], st => (st, [])
  | 0, _ :: _, st => (st, [])
  | fuel + 1, raw :: rest, st =>
    let line := trim raw
    if line = "" then v2LoopTr ots fuel rest st
    else
      match parseEpochFields line.toList with
      | some (f, remChars) =>
        let ids0 := (splitWSL remChars).map String.mk
        let pr := collectSvIds rest ids0 f.num_sv
        v2LoopTr ots fuel pr.2
          { st with
            current_epoch :=
              { year := f.year, month := f.month, day := f.day, hour := f.hour,
                minute := f.minute, second := f.second, event_flag := f.event_flag,
                num_sv := f.num_sv, sat_L1L2 := [] },
            sv_ids := pr.1, obs_lines_remaining := f.num_sv, in_epoch := true }
      | none =>
        if st.in_epoch ∧ st.obs_lines_remaining > 0 then
          let pr2 := v2LoopTr ots fuel rest (v2RowStep ots line st)
          (pr2.1, ⟨st.sv_ids.length, st.obs_lines_remaining, st.current_epoch.num_sv⟩ :: pr2.2)
        else v2LoopTr ots fuel rest st

/-- The invariant of claim C8 for the v2 machine, relative to the unread
lines: while rows remain to be consumed, the remaining count is bounded by
the declared count, and the identifier list already holds at least the
declared count of tokens unless the input is exhausted (in which case no
further row can be consumed). -/
def v2Inv (lines : List String) (st : DataState) : Prop :=
  st.in_epoch = true → 0 < st.obs_lines_remaining →
    st.obs_lines_remaining ≤ st.current_epoch.num_sv ∧
    (st.current_epoch.num_sv ≤ (st.sv_ids.length : Int) ∨ lines = [])

end rinex

/-! ### Concrete input files used by claim counterexamples and witnesses -/

/-- A v2 file whose header validates and whose data section is empty:
ParseRinex.cpp populates `out.is_v3` and `out.obs_types` (lines 210-211)
before the empty-epochs failure at line 329. -/
def c1File : List String :=
  ["2.11 OBSERVATION DATA RINEX VERSION / TYPE",
   "2      L1 L2 # / TYPES OF OBSERV",
   "END OF HEADER"]

/-- A header whose version line selects v3 but whose observation-type line is
v2-style: part_001 rejects it at its style-disagreement check. -/
def c2File : List String :=
  ["3.03 OBSERVATION DATA RINEX VERSION / TYPE",
   "2      L1 L2 # / TYPES OF OBSERV",
   "END OF HEADER"]

/-- The mismatch file of `c2File` continued with a data section: the
ParseRinex.cpp revision has no style-disagreement check, accepts the v3
version flag with the v2-style observation-type line, and parses the epoch. -/
def c2BadFile : List String :=
  ["3.03 OBSERVATION DATA RINEX VERSION / TYPE",
   "2      L1 L2 # / TYPES OF OBSERV",
   "END OF HEADER",
   "> 2023 1 1 0 0 0.0 0 1",
   "G01 1.0 2.0"]

/-- A valid v3 file whose single epoch carries one GLONASS-style satellite
line `R05 ...`: ParseRinex.cpp stores it in the epoch map without consulting
`is_gps_sat`. -/
def c3File : List String :=
  ["3.03 OBSERVATION DATA RINEX VERSION / TYPE",
   "G    2 C1C L1C   SYS / # / OBS TYPES",
   "END OF HEADER",
   "> 2023 1 1 0 0 0.0 0 1",
   "R05 1.0 2.0"]

/-- A valid v3 header followed by no epoch lines at all. -/
def c4File : List String :=
  ["3.03 OBSERVATION DATA RINEX VERSION / TYPE",
   "G    2 C1C L1C   SYS / # / OBS TYPES",
   "END OF HEADER"]

/-- A header whose declared count (2) differs from the number of extracted
type tokens (5, after a second declaration line re-runs the token loop past
the count). -/
def c5File : List String :=
  ["3.03 OBSERVATION DATA RINEX VERSION / TYPE",
   "G    2 C1C L1C   SYS / # / OBS TYPES",
   "G    2 D1C S1C   SYS / # / OBS TYPES",
   "END OF HEADER"]

/-- The epoch record assembled from `c7File` below (used by the C7 witness). -/
def c7Epoch : rinex.ObsEpoch :=
  { year := 2023, month := 1, day := 1, hour := 0, minute := 0,
    second := ⟨0, 1⟩, event_flag := 0, num_sv := 1,
    sat_L1L2 := [("G07", ⟨30, 1⟩, ⟨40, 1⟩)] }

/-- A valid v3 file with one epoch of one GPS satellite (claim C7 witness). -/
def c7File : List String :=
  ["3.03 OBSERVATION DATA RINEX VERSION / TYPE",
   "G    2 C1C L1C   SYS / # / OBS TYPES",
   "END OF HEADER",
   "> 2023 1 1 0 0 0.0 0 1",
   "G07 3.0 4.0"]

/-- A valid v2 file with one epoch of two satellites (claim C8 witness): its
epoch header line carries the two identifier tokens, and two data rows
follow. -/
def c8File : List String :=
  ["2.11 OBSERVATION DATA RINEX VERSION / TYPE",
   "2      L1 L2 # / TYPES OF OBSERV",
   "END OF HEADER",
   "23 1 1 0 0 0.0 0 2 G01 G02",
   "11.5 12.5",
   "21.5 22.5"]

/-! ## Helper lemmas -/

namespace rinex

theorem dropWhile_head_false (p : Char → Bool) :
    ∀ (l : List Char) (c : Char) (t : List Char), l.dropWhile p = c :: t → p c = false := by
  intro l
  induction l with
  | nil => intro c t h; simp [List.dropWhile] at h
  | cons a l ih =>
    intro c t h
    by_cases ha : p a
    · rw [List.dropWhile_cons_of_pos ha] at h
      exact ih c t h
    · rw [List.dropWhile_cons_of_neg ha] at h
      cases h
      exact Bool.eq_false_iff.mpr ha

theorem dropWhile_of_head_false (p : Char → Bool) (c : Char) (t : List Char)
    (h : p c = false) : (c :: t).dropWhile p = c :: t :=
  List.dropWhile_cons_of_neg (by simp [h])

theorem dropWhile_dropWhile (p : Char → Bool) (l : List Char) :
    (l.dropWhile p).dropWhile p = l.dropWhile p := by
  cases hl : l.dropWhile p with
  | nil => simp
  | cons c t => exact dropWhile_of_head_false p c t (dropWhile_head_false p l c t hl)

theorem trimL_head_false :
    ∀ (l : List Char) (c : Char) (t : List Char), trimL l = c :: t → isTrimWs c = false := by
  intro l c t h
  have key : l.dropWhile isTrimWs =
      trimL l ++ ((l.dropWhile isTrimWs).reverse.takeWhile isTrimWs).reverse := by
    have h3 := List.takeWhile_append_dropWhile (p := isTrimWs)
      (l := (l.dropWhile isTrimWs).reverse)
    have h4 := congrArg List.reverse h3
    rw [List.reverse_append, List.reverse_reverse] at h4
    exact h4.symm
  rw [h] at key
  exact dropWhile_head_false isTrimWs l c
    (t ++ ((l.dropWhile isTrimWs).reverse.takeWhile isTrimWs).reverse) (by simpa using key)

/-- C10 key step: `trimL` is idempotent. -/
theorem trimL_trimL (l : List Char) : trimL (trimL l) = trimL l := by
  have h1 : (trimL l).dropWhile isTrimWs = trimL l := by
    cases hl : trimL l with
    | nil => simp
    | cons c t => exact dropWhile_of_head_false isTrimWs c t (trimL_head_false l c t hl)
  have h2 : trimL (trimL l) = ((trimL l).reverse.dropWhile isTrimWs).reverse := by
    show (((trimL l).dropWhile isTrimWs).reverse.dropWhile isTrimWs).reverse = _
    rw [h1]
  have h3 : (trimL l).reverse = (l.dropWhile isTrimWs).reverse.dropWhile isTrimWs := by
    show ((l.dropWhile isTrimWs).reverse.dropWhile isTrimWs).reverse.reverse = _
    rw [List.reverse_reverse]
  rw [h2, h3, dropWhile_dropWhile]
  rfl

theorem mapStore_ne_nil (m : List (String × DoubleVal × DoubleVal)) (k : String)
    (v : DoubleVal × DoubleVal) : mapStore m k v ≠ [] := by
  cases m with
  | nil => simp [mapStore]
  | cons p t =>
    unfold mapStore
    split <;> simp

theorem mapStore_length_le (m : List (String × DoubleVal × DoubleVal)) (k : String)
    (v : DoubleVal × DoubleVal) : (mapStore m k v).length ≤ m.length + 1 := by
  induction m with
  | nil => simp [mapStore]
  | cons p t ih =>
    unfold mapStore
    split
    · simp
    · simpa using Nat.add_le_add_right ih 1

theorem mapStore_hasKey (m : List (String × DoubleVal × DoubleVal)) (k : String)
    (v : DoubleVal × DoubleVal) : mapHasKey (mapStore m k v) k = true := by
  induction m with
  | nil => simp [mapStore, mapHasKey]
  | cons p t ih =>
    unfold mapStore
    split
    · rename_i h
      simp [mapHasKey, h]
    · simpa [mapHasKey] using Or.inr (by simpa [mapHasKey] using ih)

end rinex

namespace rinex

/-- Characterization of the `is_number` scan for any flag state: it returns
true exactly when, among the characters that are not space or tab, the signs
(beyond one already seen) stay within one, the dots likewise, every character
is from the allowed set, and a digit or exponent letter occurs (unless the
digit flag is already set). -/
theorem is_number_go_claim (cs : List Char) : ∀ dot sign digit : Bool,
    is_number_go cs dot sign digit =
      (decide ((cs.filter (fun c => ¬ (c = ' ' || c = '\t'))).countP
          (fun c => c = '+' || c = '-') ≤ (if sign then 0 else 1)) &&
       decide ((cs.filter (fun c => ¬ (c = ' ' || c = '\t'))).countP
          (fun c => c = '.') ≤ (if dot then 0 else 1)) &&
       (cs.filter (fun c => ¬ (c = ' ' || c = '\t'))).all isNumAllowedChar &&
       (digit || (cs.filter (fun c => ¬ (c = ' ' || c = '\t'))).any
          (fun c => isdigitCpp c || c = 'e' || c = 'E'))) := by
  induction cs with
  | nil =>
    intro dot sign digit
    cases dot <;> cases sign <;> cases digit <;> simp [is_number_go]
  | cons c cs ih =>
    intro dot sign digit
    by_cases h1 : c = ' '
    · subst h1
      simp only [is_number_go, List.filter_cons]
      simpa using ih dot sign digit
    by_cases h2 : c = '\t'
    · subst h2
      simp only [is_number_go, List.filter_cons]
      simpa using ih dot sign digit
    by_cases h3 : c = '+'
    · subst h3
      simp only [is_number_go, List.filter_cons, List.countP_cons, List.all_cons, List.any_cons]
      cases sign with
      | true =>
        have hn : ¬ ((List.countP (fun c => c = '+' || c = '-')
            (cs.filter (fun c => ¬ (c = ' ' || c = '\t'))) + 1 : Nat) ≤ 0) := by omega
        simp [hn]
      | false =>
        rw [ih dot true digit]
        have he : decide ((List.countP (fun c => c = '+' || c = '-')
              (cs.filter (fun c => ¬ (c = ' ' || c = '\t'))) + 1 : Nat) ≤ 1) =
            decide ((List.countP (fun c => c = '+' || c = '-')
              (cs.filter (fun c => ¬ (c = ' ' || c = '\t'))) : Nat) ≤ 0) :=
          decide_eq_decide.mpr (by omega)
        simp only [List.countP_cons]
        simp [he, isNumAllowedChar, isdigitCpp]
    by_cases h4 : c = '-'
    · subst h4
      simp only [is_number_go, List.filter_cons, List.countP_cons, List.all_cons, List.any_cons]
      cases sign with
      | true =>
        have hn : ¬ ((List.countP (fun c => c = '+' || c = '-')
            (cs.filter (fun c => ¬ (c = ' ' || c = '\t'))) + 1 : Nat) ≤ 0) := by omega
        simp [hn]
      | false =>
        rw [ih dot true digit]
        have he : decide ((List.countP (fun c => c = '+' || c = '-')
              (cs.filter (fun c => ¬ (c = ' ' || c = '\t'))) + 1 : Nat) ≤ 1) =
            decide ((List.countP (fun c => c = '+' || c = '-')
              (cs.filter (fun c => ¬ (c = ' ' || c = '\t'))) : Nat) ≤ 0) :=
          decide_eq_decide.mpr (by omega)
        simp only [List.countP_cons]
        simp [he, isNumAllowedChar, isdigitCpp]
    by_cases h5 : c = '.'
    · subst h5
      simp only [is_number_go, List.filter_cons, List.countP_cons, List.all_cons, List.any_cons]
      cases dot with
      | true =>
        have hn : ¬ ((List.countP (fun c => c = '.')
            (cs.filter (fun c => ¬ (c = ' ' || c = '\t'))) + 1 : Nat) ≤ 0) := by omega
        simp [hn]
      | false =>
        rw [ih true sign digit]
        have he : decide ((List.countP (fun c => c = '.')
              (cs.filter (fun c => ¬ (c = ' ' || c = '\t'))) + 1 : Nat) ≤ 1) =
            decide ((List.countP (fun c => c = '.')
              (cs.filter (fun c => ¬ (c = ' ' || c = '\t'))) : Nat) ≤ 0) :=
          decide_eq_decide.mpr (by omega)
        simp only [List.countP_cons]
        simp [he, isNumAllowedChar, isdigitCpp]
    by_cases h6 : isdigitCpp c = true
    · have hne : c ≠ 'E' := by
        intro hc; subst hc; simp [isdigitCpp] at h6
      have hne2 : c ≠ 'e' := by
        intro hc; subst hc; simp [isdigitCpp] at h6
      have hall : isNumAllowedChar c = true := by simp [isNumAllowedChar, h6]
      simp only [is_number_go, List.filter_cons, List.countP_cons, List.all_cons, List.any_cons]
      rw [ih dot sign true]
      simp [h1, h2, h3, h4, h5, h6, hall]
    by_cases h7 : c = 'E'
    · subst h7
      simp only [is_number_go, List.filter_cons, List.countP_cons, List.all_cons, List.any_cons]
      rw [ih dot sign true]
      simp [isNumAllowedChar]
    by_cases h8 : c = 'e'
    · subst h8
      simp only [is_number_go, List.filter_cons, List.countP_cons, List.all_cons, List.any_cons]
      rw [ih dot sign true]
      simp [isNumAllowedChar]
    · have hall : isNumAllowedChar c = false := by
        simp [isNumAllowedChar, h1, h2, h3, h4, h5, h7, h8]
        exact Bool.eq_false_iff.mpr h6
      simp only [is_number_go, List.filter_cons, List.countP_cons, List.all_cons, List.any_cons]
      simp [h1, h2, h3, h4, h5, h6, h7, h8, hall]

end rinex

/-! ## Claim theorems -/

/-- C10: `trim` is idempotent: `trim(trim(s)) = trim(s)` for every string. -/
theorem c10_trim_idempotent (s : String) : rinex.trim (rinex.trim s) = rinex.trim s := by
  show String.mk (rinex.trimL (String.mk (rinex.trimL s.toList)).toList) = _
  rw [show (String.mk (rinex.trimL s.toList)).toList = rinex.trimL s.toList from rfl,
    rinex.trimL_trimL]
  rfl

/-- C9 counterexample: the claim requires at least one digit, but
`is_number "E"` returns true although `"E"` holds no digit (the scan sets its
digit flag on the exponent letter itself); the claim predicate, spelled out
as `is_number_claim`, rejects `"E"`. -/
theorem c9_counterexample :
    rinex.is_number "E" = true ∧ rinex.is_number_claim "E" = false := by
  constructor
  · rfl
  · rfl

/-- C9 amended: `is_number` agrees everywhere with the claim predicate whose
digit requirement is weakened to "at least one digit or exponent letter
(e/E)"; the sign bound, dot bound, and allowed-character set are exactly as
the claim states them, and the documented examples follow by evaluation. -/
theorem c9_amended (s : String) : rinex.is_number s = rinex.is_number_claim_amended s := by
  show rinex.is_number_go s.toList false false false = _
  rw [rinex.is_number_go_claim s.toList false false false]
  simp [rinex.is_number_claim_amended]

/-- C6: in the v3 machine, a line that begins with the epoch marker but whose
eight numeric fields fail to parse changes nothing: the whole machine state
(epoch openness included) is untouched, nothing is appended, and the loop
simply moves to the next line instead of aborting the parse. -/
theorem c6_malformed_epoch_header_discarded (fuel : Nat) (ots : List String)
    (line : String) (rest : List String) (st : rinex.DataState)
    (hne : rinex.trim line ≠ "")
    (hgt : (rinex.trim line).toList.headD '\x00' = '>')
    (hfail : rinex.parseEpochFields ((rinex.trim line).toList.drop 1) = none) :
    rinex.dataLoopF true ots (fuel + 1) (line :: rest) st =
      rinex.dataLoopF true ots fuel rest st := by
  simp only [List.headD_eq_head?_getD, String.toList] at hgt
  simp only [List.drop_one, String.toList] at hfail
  simp [rinex.dataLoopF, hne, hgt, hfail]

/-- C6 witness: the malformed epoch header `"> x"` is dropped and the machine
state is unchanged. -/
theorem c6_witness :
    rinex.trim "> x" ≠ "" ∧ (rinex.trim "> x").toList.headD '\x00' = '>' ∧
    rinex.parseEpochFields ((rinex.trim "> x").toList.drop 1) = none ∧
    rinex.dataLoopF true ["L1C"] 1 ["> x"] {} = rinex.dataLoopF true ["L1C"] 0 [] {} :=
  ⟨by decide, by decide, by decide,
    c6_malformed_epoch_header_discarded 0 ["L1C"] "> x" [] {}
      (by decide) (by decide) (by decide)⟩

/-- C3 counterexample: on a valid v3 file whose single satellite line names
`R05`, ParseRinex.cpp returns success with `R05` in the epoch map even though
`is_gps_sat "R05"` is false — the data section never consults the
constellation filter, so non-GPS satellites are not excluded. -/
theorem c3_counterexample :
    rinex.parse_rinex_obs c3File {} =
      some (true,
        { is_v3 := true, obs_types := ["C1C", "L1C"],
          epochs := [{ year := 2023, month := 1, day := 1, hour := 0, minute := 0,
                       second := ⟨0, 1⟩, event_flag := 0, num_sv := 1,
                       sat_L1L2 := [("R05", ⟨10, 1⟩, ⟨20, 1⟩)] }] }) ∧
    rinex.is_gps_sat "R05" = false :=
  ⟨rfl, rfl⟩

/-- C3 amended: every satellite data row consumed by either machine stores an
entry under its looked-up, normalized identifier unconditionally — the
constellation classifier `is_gps_sat` is never applied, so non-GPS
satellites populate epoch records exactly like GPS ones. -/
theorem c3_amended (ots : List String) (line : String) (st : rinex.DataState) :
    rinex.mapHasKey ((rinex.v3RowStep ots line st).current_epoch.sat_L1L2)
        (rinex.rowSvId line) = true ∧
    rinex.mapHasKey ((rinex.v2RowStep ots line st).current_epoch.sat_L1L2)
        (rinex.normalize_sat_id
          (st.sv_ids.getD (st.sv_ids.length - st.obs_lines_remaining.toNat) "")) = true := by
  constructor
  · unfold rinex.v3RowStep rinex.rowSvId
    cases h : rinex.readTokenS line.toList with
    | none => simp only [h]; split <;> exact rinex.mapStore_hasKey _ _ _
    | some pr => simp only [h]; split <;> exact rinex.mapStore_hasKey _ _ _
  · unfold rinex.v2RowStep
    dsimp only
    split <;> exact rinex.mapStore_hasKey _ _ _

/-- C2 counterexample: the repository's complete revision
(`rinex::parse_rinex_obs` of ParseRinex.cpp) has no style-disagreement
check: on a file whose version line selects v3 (`is_rinex_v3` true) while
the only observation-type line seen is v2-style (it lacks the
`SYS / # / OBS TYPES` marker), it does not fail — it consumes the data lines
and returns success, refuting the claim for this revision. -/
theorem c2_counterexample :
    rinex.parse_rinex_obs c2BadFile {} =
      some (true,
        { is_v3 := true, obs_types := ["L1", "L2"],
          epochs := [{ year := 2023, month := 1, day := 1, hour := 0, minute := 0,
                       second := ⟨0, 1⟩, event_flag := 0, num_sv := 1,
                       sat_L1L2 := [("G01", ⟨10, 1⟩, ⟨20, 1⟩)] }] }) ∧
    rinex.is_rinex_v3 "3.03 OBSERVATION DATA RINEX VERSION / TYPE" = true ∧
    rinex.hasInfixS "2      L1 L2 # / TYPES OF OBSERV" "SYS / # / OBS TYPES" = false ∧
    rinex.hasInfixS "2      L1 L2 # / TYPES OF OBSERV" "# / TYPES OF OBSERV" = true :=
  ⟨rfl, rfl, rfl, rfl⟩

/-- C2 amended: the format-disagreement rejection is implemented only in the
part_001 revision of `parse_rinex_obs` (the global-namespace draft): there,
whenever the header loop completes through the end-of-header marker with an
observation-type line seen whose style disagrees with the detected version
flag, the parse fails with the format-disagreement error message and the
caller record untouched, before any data processing (that revision performs
none); the ParseRinex.cpp revision omits the check. -/
theorem c2_style_disagreement_fails (lines : List String) (out : Part001.RinexObs)
    (st : rinex.HeaderSt) (rest : List String)
    (hdr : Part001.headerLoopP lines.length lines {} = .done st true rest)
    (hseen : st.obs_type_line_found = true)
    (hmis : (st.is_v3 = true ∧ rinex.hasInfixS st.obs_type_line "SYS / # / OBS TYPES" = false) ∨
            (st.is_v3 = false ∧ rinex.hasInfixS st.obs_type_line "# / TYPES OF OBSERV" = false)) :
    Part001.parse_rinex_obs lines out =
      some (false, out, ["Error: Version and obs type line format disagree."]) := by
  unfold Part001.parse_rinex_obs
  rw [hdr]
  exact if_pos hmis

/-- C2 witness: a v3 version line with a v2-style observation-type line is
rejected with the disagreement message. -/
theorem c2_witness :
    Part001.headerLoopP c2File.length c2File {} =
      .done { version_found := true, obs_type_line_found := true, is_v3 := true,
              version_line := "3.03 OBSERVATION DATA RINEX VERSION / TYPE",
              obs_type_line := "2      L1 L2 # / TYPES OF OBSERV",
              obs_types := ["L1", "L2"], obs_type_count := 2 } true [] ∧
    Part001.parse_rinex_obs c2File {} =
      some (false, {}, ["Error: Version and obs type line format disagree."]) :=
  ⟨by decide,
    c2_style_disagreement_fails c2File {}
      { version_found := true, obs_type_line_found := true, is_v3 := true,
        version_line := "3.03 OBSERVATION DATA RINEX VERSION / TYPE",
        obs_type_line := "2      L1 L2 # / TYPES OF OBSERV",
        obs_types := ["L1", "L2"], obs_type_count := 2 } []
      (by decide) (by decide) (Or.inl ⟨by decide, by decide⟩)⟩

/-- C5: when the header loop completes through the end-of-header marker with
both header lines seen and a positive declared count that differs from the
number of extracted type tokens, ParseRinex.cpp fails (its merged validation
at lines 204-209), and the spec-modelled error classification names the
failure invalid-type-count. -/
theorem c5_count_mismatch_fails (lines : List String) (out : rinex.RinexObs)
    (st : rinex.HeaderSt) (rest : List String)
    (hdr : rinex.headerLoopF lines.length lines {} = .done st true rest)
    (hvf : st.version_found = true) (hof : st.obs_type_line_found = true)
    (hcnt : 0 < st.obs_type_count)
    (hne : (st.obs_types.length : Int) ≠ st.obs_type_count) :
    rinex.parse_rinex_obs lines out = some (false, out) ∧
    rinex.parse_rinex_obs_err lines out = some (.InvalidObsTypeCount, out) := by
  constructor
  · unfold rinex.parse_rinex_obs
    rw [hdr]
    exact if_pos (Or.inr (Or.inr (Or.inr (Or.inr hne))))
  · unfold rinex.parse_rinex_obs_err
    simp only [hdr]
    rw [if_neg (show ¬ (true = false ∨ st.version_found = false ∨ st.obs_type_line_found = false)
      by simp [hvf, hof])]
    exact if_pos (Or.inr hne)

/-- C5 witness: a header declaring 2 types but extracting 5 tokens fails in
ParseRinex.cpp and classifies as invalid-type-count. -/
theorem c5_witness :
    rinex.headerLoopF c5File.length c5File {} =
      .done { version_found := true, obs_type_line_found := true, is_v3 := true,
              version_line := "3.03 OBSERVATION DATA RINEX VERSION / TYPE",
              obs_type_line := "G    2 D1C S1C   SYS / # / OBS TYPES",
              obs_types := ["C1C", "L1C", "D1C", "S1C", "SYS"], obs_type_count := 2 } true [] ∧
    rinex.parse_rinex_obs c5File {} = some (false, {}) ∧
    rinex.parse_rinex_obs_err c5File {} = some (.InvalidObsTypeCount, {}) := by
  refine ⟨by decide, ?_, ?_⟩
  · exact (c5_count_mismatch_fails c5File {}
      { version_found := true, obs_type_line_found := true, is_v3 := true,
        version_line := "3.03 OBSERVATION DATA RINEX VERSION / TYPE",
        obs_type_line := "G    2 D1C S1C   SYS / # / OBS TYPES",
        obs_types := ["C1C", "L1C", "D1C", "S1C", "SYS"], obs_type_count := 2 } []
      (by decide) (by decide) (by decide) (by decide) (by decide)).1
  · exact (c5_count_mismatch_fails c5File {}
      { version_found := true, obs_type_line_found := true, is_v3 := true,
        version_line := "3.03 OBSERVATION DATA RINEX VERSION / TYPE",
        obs_type_line := "G    2 D1C S1C   SYS / # / OBS TYPES",
        obs_types := ["C1C", "L1C", "D1C", "S1C", "SYS"], obs_type_count := 2 } []
      (by decide) (by decide) (by decide) (by decide) (by decide)).2

namespace rinex

theorem v3RowStep_epochs_extend (ots : List String) (line : String) (st : DataState) :
    ∃ l, (v3RowStep ots line st).epochs = st.epochs ++ l := by
  unfold v3RowStep
  dsimp only
  split
  · exact ⟨_, rfl⟩
  · exact ⟨[], (List.append_nil _).symm⟩

theorem v2RowStep_epochs_extend (ots : List String) (line : String) (st : DataState) :
    ∃ l, (v2RowStep ots line st).epochs = st.epochs ++ l := by
  unfold v2RowStep
  dsimp only
  split
  · exact ⟨_, rfl⟩
  · exact ⟨[], (List.append_nil _).symm⟩

/-- The data loop only appends: its final epoch list extends the one it
started from. -/
theorem dataLoopF_epochs_extend (v3 : Bool) (ots : List String) :
    ∀ fuel lines st, ∃ l, (dataLoopF v3 ots fuel lines st).epochs = st.epochs ++ l := by
  intro fuel
  induction fuel with
  | zero =>
    intro lines st
    cases lines <;> exact ⟨[], by simp [dataLoopF]⟩
  | succ fuel ih =>
    intro lines st
    cases lines with
    | nil => exact ⟨[], by simp [dataLoopF]⟩
    | cons raw rest =>
      simp only [dataLoopF]
      split
      · exact ih rest st
      split
      · split
        · split
          · exact ih rest st
          · obtain ⟨l, hl⟩ := ih rest _
            exact ⟨l, by simpa using hl⟩
        · split
          · obtain ⟨l1, h1⟩ := v3RowStep_epochs_extend ots (trim raw) st
            obtain ⟨l2, h2⟩ := ih rest (v3RowStep ots (trim raw) st)
            exact ⟨l1 ++ l2, by rw [h2, h1, List.append_assoc]⟩
          · exact ih rest st
      · split
        · obtain ⟨l, hl⟩ := ih _ _
          exact ⟨l, by simpa using hl⟩
        · split
          · obtain ⟨l1, h1⟩ := v2RowStep_epochs_extend ots (trim raw) st
            obtain ⟨l2, h2⟩ := ih rest (v2RowStep ots (trim raw) st)
            exact ⟨l1 ++ l2, by rw [h2, h1, List.append_assoc]⟩
          · exact ih rest st

end rinex

/-- C1 counterexample: on a file with a fully valid header and no data lines,
ParseRinex.cpp reports failure (the no-epochs return at line 329) yet the
caller record already carries the version flag and the populated
observation-type list `["L1", "L2"]` assigned at lines 210-211 — the claim
that all output fields stay unpopulated alongside every error is false. -/
theorem c1_counterexample :
    rinex.parse_rinex_obs c1File {} =
      some (false, { is_v3 := false, obs_types := ["L1", "L2"], epochs := [] }) ∧
    (["L1", "L2"] : List String) ≠ [] :=
  ⟨rfl, by decide⟩

/-- C1 amended: on every reported failure no epoch is exposed (the epoch
sequence equals the one the caller passed in), and the record is either
entirely untouched (header-phase failures) or — on the no-epochs failure
only — has its version flag and non-empty observation-type list populated
from the validated header. -/
theorem c1_amended_no_partial_epochs (lines : List String) (out o : rinex.RinexObs)
    (h : rinex.parse_rinex_obs lines out = some (false, o)) :
    o.epochs = out.epochs ∧
    (o = out ∨ ∃ v ts, ts ≠ [] ∧ o = { out with is_v3 := v, obs_types := ts }) := by
  unfold rinex.parse_rinex_obs at h
  cases hh : rinex.headerLoopF lines.length lines {} with
  | crash => rw [hh] at h; simp at h
  | abort =>
    simp only [hh, Option.some.injEq, Prod.mk.injEq, true_and] at h
    cases h
    exact ⟨rfl, Or.inl rfl⟩
  | done st eoh rest =>
    simp only [hh] at h
    by_cases hvalid : (eoh = false ∨ st.version_found = false ∨ st.obs_type_line_found = false ∨
        st.obs_type_count ≤ 0 ∨ (st.obs_types.length : Int) ≠ st.obs_type_count)
    · rw [if_pos hvalid] at h
      simp only [Option.some.injEq, Prod.mk.injEq, true_and] at h
      cases h
      exact ⟨rfl, Or.inl rfl⟩
    · rw [if_neg hvalid] at h
      push_neg at hvalid
      obtain ⟨-, -, -, hcnt, hlen⟩ := hvalid
      split at h
      · rename_i hemp
        simp only [Option.some.injEq, Prod.mk.injEq, true_and] at h
        obtain ⟨l, hl⟩ := rinex.dataLoopF_epochs_extend st.is_v3 st.obs_types rest.length rest
          { epochs := out.epochs }
        have hemp2 : out.epochs ++ l = [] := by
          rw [← hl]
          simpa using hemp
        have hout : out.epochs = [] := (List.append_eq_nil.mp hemp2).1
        have hfin : (rinex.dataLoopF st.is_v3 st.obs_types rest.length rest
            ({ epochs := out.epochs } : rinex.DataState)).epochs = [] := by
          rw [hl, hemp2]
        subst h
        constructor
        · simpa [hout] using hfin
        · refine Or.inr ⟨st.is_v3, st.obs_types, ?_, ?_⟩
          · intro hnil
            rw [hnil] at hlen
            simp at hlen
            omega
          · cases out with
            | mk ov ots0 oe =>
              simp only at hout
              subst hout
              simp_all
      · simp at h

/-- C1 amended witness: the no-epochs failure on `c1File` leaves the epoch
sequence empty while the type list is populated. -/
theorem c1_amended_witness :
    rinex.parse_rinex_obs c1File {} =
      some (false, { is_v3 := false, obs_types := ["L1", "L2"], epochs := [] }) ∧
    ({ is_v3 := false, obs_types := ["L1", "L2"], epochs := [] } : rinex.RinexObs).epochs =
      ({} : rinex.RinexObs).epochs ∧
    (({ is_v3 := false, obs_types := ["L1", "L2"], epochs := [] } : rinex.RinexObs) = {} ∨
      ∃ v ts, ts ≠ [] ∧
        ({ is_v3 := false, obs_types := ["L1", "L2"], epochs := [] } : rinex.RinexObs) =
          { ({} : rinex.RinexObs) with is_v3 := v, obs_types := ts }) := by
  refine ⟨by decide, ?_, ?_⟩
  · exact (c1_amended_no_partial_epochs c1File {} _ (by decide)).1
  · exact (c1_amended_no_partial_epochs c1File {} _ (by decide)).2

/-- C4: when the header fully validates (end-of-header reached, both lines
seen, positive count matching the extracted list) but the data section
assembles zero epochs, ParseRinex.cpp returns failure — and the
spec-modelled error classification names it the distinct no-epochs kind;
moreover success is never returned with an empty epoch sequence. -/
theorem c4_no_epochs_failure :
    (∀ (lines : List String) (out : rinex.RinexObs) (st : rinex.HeaderSt) (rest : List String),
      rinex.headerLoopF lines.length lines {} = .done st true rest →
      st.version_found = true → st.obs_type_line_found = true →
      0 < st.obs_type_count → (st.obs_types.length : Int) = st.obs_type_count →
      (rinex.dataLoopF st.is_v3 st.obs_types rest.length rest
        ({ epochs := out.epochs } : rinex.DataState)).epochs = [] →
      rinex.parse_rinex_obs lines out =
        some (false, { out with is_v3 := st.is_v3, obs_types := st.obs_types, epochs := [] }) ∧
      rinex.parse_rinex_obs_err lines out =
        some (.NoEpochs, { out with is_v3 := st.is_v3, obs_types := st.obs_types, epochs := [] })) ∧
    (∀ (lines : List String) (out r : rinex.RinexObs),
      rinex.parse_rinex_obs lines out = some (true, r) → r.epochs ≠ []) := by
  constructor
  · intro lines out st rest hdr hvf hof hcnt hlen hemp
    have hnv : ¬ (true = false ∨ st.version_found = false ∨ st.obs_type_line_found = false ∨
        st.obs_type_count ≤ 0 ∨ (st.obs_types.length : Int) ≠ st.obs_type_count) := by
      simp [hvf, hof, hlen]
      omega
    constructor
    · unfold rinex.parse_rinex_obs
      simp only [hdr]
      rw [if_neg hnv]
      split
      · simp only [hemp]
      · rename_i hcond
        exact (hcond (by simpa using hemp)).elim
    · unfold rinex.parse_rinex_obs_err
      simp only [hdr]
      rw [if_neg (show ¬ (true = false ∨ st.version_found = false ∨
          st.obs_type_line_found = false) by simp [hvf, hof])]
      rw [if_neg (show ¬ (st.obs_type_count ≤ 0 ∨
          (st.obs_types.length : Int) ≠ st.obs_type_count) by simp [hlen]; omega)]
      split
      · simp only [hemp]
      · rename_i hcond
        exact (hcond (by simpa using hemp)).elim
  · intro lines out r h
    unfold rinex.parse_rinex_obs at h
    cases hh : rinex.headerLoopF lines.length lines {} with
    | crash => rw [hh] at h; simp at h
    | abort => simp only [hh] at h; simp at h
    | done st eoh rest =>
      simp only [hh] at h
      split at h
      · simp at h
      · split at h
        · simp at h
        · rename_i hne
          simp only [Option.some.injEq, Prod.mk.injEq, true_and] at h
          subst h
          simpa using hne

/-- C4 witness: a valid v3 header with no epoch lines yields failure and the
no-epochs classification, with an empty epoch sequence. -/
theorem c4_witness :
    rinex.headerLoopF c4File.length c4File {} =
      .done { version_found := true, obs_type_line_found := true, is_v3 := true,
              version_line := "3.03 OBSERVATION DATA RINEX VERSION / TYPE",
              obs_type_line := "G    2 C1C L1C   SYS / # / OBS TYPES",
              obs_types := ["C1C", "L1C"], obs_type_count := 2 } true [] ∧
    rinex.parse_rinex_obs c4File {} =
      some (false, { is_v3 := true, obs_types := ["C1C", "L1C"], epochs := [] }) ∧
    rinex.parse_rinex_obs_err c4File {} =
      some (.NoEpochs, { is_v3 := true, obs_types := ["C1C", "L1C"], epochs := [] }) := by
  refine ⟨by decide, ?_, ?_⟩
  · exact (c4_no_epochs_failure.1 c4File {}
      { version_found := true, obs_type_line_found := true, is_v3 := true,
        version_line := "3.03 OBSERVATION DATA RINEX VERSION / TYPE",
        obs_type_line := "G    2 C1C L1C   SYS / # / OBS TYPES",
        obs_types := ["C1C", "L1C"], obs_type_count := 2 } []
      (by decide) (by decide) (by decide) (by decide) (by decide) (by decide)).1
  · exact (c4_no_epochs_failure.1 c4File {}
      { version_found := true, obs_type_line_found := true, is_v3 := true,
        version_line := "3.03 OBSERVATION DATA RINEX VERSION / TYPE",
        obs_type_line := "G    2 C1C L1C   SYS / # / OBS TYPES",
        obs_types := ["C1C", "L1C"], obs_type_count := 2 } []
      (by decide) (by decide) (by decide) (by decide) (by decide) (by decide)).2

namespace rinex

theorem v3RowStep_preserves (ots : List String) (line : String) (st : DataState)
    (hrem : 0 < st.svs_remaining)
    (hinv : (st.current_epoch.sat_L1L2.length : Int) ≤
      st.current_epoch.num_sv - st.svs_remaining) :
    ((v3RowStep ots line st).in_epoch = true →
      ((v3RowStep ots line st).current_epoch.sat_L1L2.length : Int) ≤
        (v3RowStep ots line st).current_epoch.num_sv - (v3RowStep ots line st).svs_remaining) ∧
    (∀ e ∈ (v3RowStep ots line st).epochs, e ∈ st.epochs ∨ epochOK e) := by
  unfold v3RowStep
  dsimp only
  split
  · rename_i hzero
    refine ⟨fun hfalse => by simp at hfalse, fun e he => ?_⟩
    rw [List.mem_append] at he
    rcases he with he | he
    · exact Or.inl he
    · simp only [List.mem_singleton] at he
      subst he
      refine Or.inr ⟨mapStore_ne_nil _ _ _, by dsimp only; omega, ?_⟩
      dsimp only
      refine le_trans (Nat.cast_le.mpr (mapStore_length_le _ _ _)) ?_
      push_cast
      omega
  · rename_i hnz
    refine ⟨fun _ => ?_, fun e he => Or.inl he⟩
    dsimp only
    refine le_trans (Nat.cast_le.mpr (mapStore_length_le _ _ _)) ?_
    push_cast
    omega

theorem v2RowStep_preserves (ots : List String) (line : String) (st : DataState)
    (hrem : 0 < st.obs_lines_remaining)
    (hinv : (st.current_epoch.sat_L1L2.length : Int) ≤
      st.current_epoch.num_sv - st.obs_lines_remaining) :
    ((v2RowStep ots line st).in_epoch = true →
      ((v2RowStep ots line st).current_epoch.sat_L1L2.length : Int) ≤
        (v2RowStep ots line st).current_epoch.num_sv -
          (v2RowStep ots line st).obs_lines_remaining) ∧
    (∀ e ∈ (v2RowStep ots line st).epochs, e ∈ st.epochs ∨ epochOK e) := by
  unfold v2RowStep
  dsimp only
  split
  · rename_i hzero
    refine ⟨fun hfalse => by simp at hfalse, fun e he => ?_⟩
    rw [List.mem_append] at he
    rcases he with he | he
    · exact Or.inl he
    · simp only [List.mem_singleton] at he
      subst he
      refine Or.inr ⟨mapStore_ne_nil _ _ _, by dsimp only; omega, ?_⟩
      dsimp only
      refine le_trans (Nat.cast_le.mpr (mapStore_length_le _ _ _)) ?_
      push_cast
      omega
  · rename_i hnz
    refine ⟨fun _ => ?_, fun e he => Or.inl he⟩
    dsimp only
    refine le_trans (Nat.cast_le.mpr (mapStore_length_le _ _ _)) ?_
    push_cast
    omega

end rinex

namespace rinex

/-- Every epoch in the data-loop result is either one the loop started with
or satisfies the C7 epoch property. -/
theorem dataLoopF_epochs_ok (v3 : Bool) (ots : List String) :
    ∀ fuel lines st,
      (st.in_epoch = true →
        (st.current_epoch.sat_L1L2.length : Int) ≤
          st.current_epoch.num_sv -
            (if v3 = true then st.svs_remaining else st.obs_lines_remaining)) →
      ∀ e ∈ (dataLoopF v3 ots fuel lines st).epochs, e ∈ st.epochs ∨ epochOK e := by
  intro fuel
  induction fuel with
  | zero =>
    intro lines st hinv e he
    cases lines with
    | nil => exact Or.inl (by simpa [dataLoopF] using he)
    | cons raw rest => exact Or.inl (by simpa [dataLoopF] using he)
  | succ fuel ih =>
    intro lines st hinv e he
    cases lines with
    | nil => exact Or.inl (by simpa [dataLoopF] using he)
    | cons raw rest =>
      simp only [dataLoopF] at he
      split at he
      · exact ih rest st hinv e he
      · split at he
        · rename_i hv3
          split at he
          · split at he
            · first
              | exact ih rest st hinv e he
              | exact Or.elim (ih rest _ (fun _ => by simp [hv3]) e he)
                  (fun h1 => Or.inl (by simpa using h1)) Or.inr
            · first
              | exact ih rest st hinv e he
              | exact Or.elim (ih rest _ (fun _ => by simp [hv3]) e he)
                  (fun h1 => Or.inl (by simpa using h1)) Or.inr
          · split at he
            · rename_i hguard
              obtain ⟨hin, hrem⟩ := hguard
              have hinv2 : (st.current_epoch.sat_L1L2.length : Int) ≤
                  st.current_epoch.num_sv - st.svs_remaining := by
                simpa [hv3] using hinv hin
              have hp := v3RowStep_preserves ots (trim raw) st hrem hinv2
              have hrec := ih rest (v3RowStep ots (trim raw) st)
                (fun h2 => by simpa [hv3] using hp.1 h2) e he
              rcases hrec with h1 | h2
              · exact hp.2 e h1
              · exact Or.inr h2
            · exact ih rest st hinv e he
        · rename_i hv3f
          split at he
          · first
            | exact ih rest st hinv e he
            | exact Or.elim (ih _ _ (fun _ => by simp [hv3f]) e he)
                (fun h1 => Or.inl (by simpa using h1)) Or.inr
          · split at he
            · rename_i hguard
              obtain ⟨hin, hrem⟩ := hguard
              have hinv2 : (st.current_epoch.sat_L1L2.length : Int) ≤
                  st.current_epoch.num_sv - st.obs_lines_remaining := by
                simpa [hv3f] using hinv hin
              have hp := v2RowStep_preserves ots (trim raw) st hrem hinv2
              have hrec := ih rest (v2RowStep ots (trim raw) st)
                (fun h2 => by simpa [hv3f] using hp.1 h2) e he
              rcases hrec with h1 | h2
              · exact hp.2 e h1
              · exact Or.inr h2
            · exact ih rest st hinv e he

end rinex

/-- C7: every epoch appended by either machine to the result of a parse that
started from an empty epoch sequence has a non-empty satellite map of size at
most its declared satellite count, and that declared count is at least one —
in particular an epoch header declaring zero or fewer satellites never yields
an appended epoch. -/
theorem c7_appended_epochs_ok (lines : List String) (out : rinex.RinexObs)
    (b : Bool) (o : rinex.RinexObs) (e : rinex.ObsEpoch)
    (hout : out.epochs = [])
    (h : rinex.parse_rinex_obs lines out = some (b, o))
    (he : e ∈ o.epochs) :
    e.sat_L1L2 ≠ [] ∧ 1 ≤ e.num_sv ∧ (e.sat_L1L2.length : Int) ≤ e.num_sv := by
  unfold rinex.parse_rinex_obs at h
  cases hh : rinex.headerLoopF lines.length lines {} with
  | crash => rw [hh] at h; simp at h
  | abort =>
    simp only [hh, Option.some.injEq, Prod.mk.injEq] at h
    rw [← h.2, hout] at he
    simp at he
  | done st eoh rest =>
    simp only [hh] at h
    split at h
    · simp only [Option.some.injEq, Prod.mk.injEq] at h
      rw [← h.2, hout] at he
      simp at he
    · have hok := rinex.dataLoopF_epochs_ok st.is_v3 st.obs_types rest.length rest
        ({ epochs := out.epochs } : rinex.DataState) (by intro hfalse; simp at hfalse) e
      split at h
      · simp only [Option.some.injEq, Prod.mk.injEq] at h
        rw [← h.2] at he
        simp only at he
        rcases hok (by simpa using he) with h1 | h2
        · rw [hout] at h1; simp at h1
        · exact h2
      · simp only [Option.some.injEq, Prod.mk.injEq] at h
        rw [← h.2] at he
        simp only at he
        rcases hok (by simpa using he) with h1 | h2
        · rw [hout] at h1; simp at h1
        · exact h2

/-- C7 witness: the single epoch of a one-satellite v3 file satisfies the
appended-epoch invariant. -/
theorem c7_witness :
    (({} : rinex.RinexObs).epochs = []) ∧
    rinex.parse_rinex_obs c7File {} =
      some (true, { is_v3 := true, obs_types := ["C1C", "L1C"], epochs := [c7Epoch] }) ∧
    (c7Epoch.sat_L1L2 ≠ [] ∧ 1 ≤ c7Epoch.num_sv ∧
      (c7Epoch.sat_L1L2.length : Int) ≤ c7Epoch.num_sv) := by
  refine ⟨rfl, by decide, ?_⟩
  exact c7_appended_epochs_ok c7File {} true
    { is_v3 := true, obs_types := ["C1C", "L1C"], epochs := [c7Epoch] } c7Epoch
    (by decide) (by decide) (by decide)

namespace rinex

/-- After the v2 identifier collection, either enough identifiers were
gathered for the declared count or the input is exhausted. -/
theorem collectSvIds_spec :
    ∀ (lines : List String) (ids : List String) (nsv : Int),
      nsv ≤ ((collectSvIds lines ids nsv).1.length : Int) ∨
        (collectSvIds lines ids nsv).2 = [] := by
  intro lines
  induction lines with
  | nil =>
    intro ids nsv
    unfold collectSvIds
    split
    · exact Or.inr rfl
    · exact Or.inr rfl
  | cons l rest ih =>
    intro ids nsv
    unfold collectSvIds
    split
    · exact ih _ nsv
    · rename_i h
      left
      dsimp only
      omega

theorem v2RowStep_fields (ots : List String) (line : String) (st : DataState) :
    (v2RowStep ots line st).sv_ids = st.sv_ids ∧
    (v2RowStep ots line st).current_epoch.num_sv = st.current_epoch.num_sv ∧
    (v2RowStep ots line st).obs_lines_remaining = st.obs_lines_remaining - 1 ∧
    ((v2RowStep ots line st).in_epoch = true → st.obs_lines_remaining - 1 ≠ 0) := by
  unfold v2RowStep
  dsimp only
  split
  · exact ⟨rfl, rfl, rfl, fun hfalse => by simp at hfalse⟩
  · rename_i hz
    exact ⟨rfl, rfl, rfl, fun _ => hz⟩

/-- The instrumented v2 loop computes the same final state as the v2 branch
of the data loop. -/
theorem v2LoopTr_fst (ots : List String) :
    ∀ fuel lines st, (v2LoopTr ots fuel lines st).1 = dataLoopF false ots fuel lines st := by
  intro fuel
  induction fuel with
  | zero =>
    intro lines st
    cases lines <;> simp [v2LoopTr, dataLoopF]
  | succ fuel ih =>
    intro lines st
    cases lines with
    | nil => simp [v2LoopTr, dataLoopF]
    | cons raw rest =>
      by_cases hemp : trim raw = ""
      · simp only [v2LoopTr, dataLoopF, if_pos hemp]
        exact ih rest st
      · simp only [v2LoopTr, dataLoopF, if_neg hemp]
        cases hpr : parseEpochFields (trim raw).toList with
        | none =>
          simp only [hpr]
          by_cases hg : (st.in_epoch = true ∧ st.obs_lines_remaining > 0)
          · rw [if_pos hg, if_pos hg]
            exact ih rest (v2RowStep ots (trim raw) st)
          · rw [if_neg hg, if_neg hg]
            exact ih rest st
        | some pr =>
          obtain ⟨f, remChars⟩ := pr
          simp only [hpr]
          split
          · rename_i hfalse
            simp at hfalse
          · exact ih _ _

/-- Bounds invariant for the instrumented v2 loop: under the C8 invariant,
every recorded row consumption has a positive remaining count bounded by the
declared count, which in turn is bounded by the identifier-list length, so
the positional index is in range. -/
theorem v2LoopTr_bounds (ots : List String) :
    ∀ fuel lines st,
      (st.in_epoch = true → 0 < st.obs_lines_remaining →
        st.obs_lines_remaining ≤ st.current_epoch.num_sv ∧
        (st.current_epoch.num_sv ≤ (st.sv_ids.length : Int) ∨ lines = [])) →
      ∀ r ∈ (v2LoopTr ots fuel lines st).2,
        0 < r.rem ∧ r.rem ≤ r.num_sv ∧ r.num_sv ≤ (r.svLen : Int) ∧
        r.rem.toNat ≤ r.svLen ∧ r.svLen - r.rem.toNat < r.svLen := by
  intro fuel
  induction fuel with
  | zero =>
    intro lines st hinv r hr
    cases lines <;> simp [v2LoopTr] at hr
  | succ fuel ih =>
    intro lines st hinv r hr
    cases lines with
    | nil => simp [v2LoopTr] at hr
    | cons raw rest =>
      by_cases hemp : trim raw = ""
      · rw [show v2LoopTr ots (fuel + 1) (raw :: rest) st = v2LoopTr ots fuel rest st by
          simp [v2LoopTr, hemp]] at hr
        refine ih rest st ?_ r hr
        intro hin hrem
        obtain ⟨h1, h2⟩ := hinv hin hrem
        refine ⟨h1, ?_⟩
        rcases h2 with h2 | h2
        · exact Or.inl h2
        · exact absurd h2 (by simp)
      · simp only [v2LoopTr, if_neg hemp] at hr
        cases hpr : parseEpochFields (trim raw).toList with
        | none =>
          simp only [hpr] at hr
          by_cases hg : (st.in_epoch = true ∧ st.obs_lines_remaining > 0)
          · rw [if_pos hg] at hr
            obtain ⟨hin, hrem⟩ := hg
            obtain ⟨h1, h2⟩ := hinv hin hrem
            have hlen : st.current_epoch.num_sv ≤ (st.sv_ids.length : Int) := by
              rcases h2 with h2 | h2
              · exact h2
              · exact absurd h2 (by simp)
            simp only [List.mem_cons] at hr
            rcases hr with hr | hr
            · subst hr
              refine ⟨hrem, h1, hlen, ?_, ?_⟩
              · dsimp only
                omega
              · dsimp only
                omega
            · refine ih rest (v2RowStep ots (trim raw) st) ?_ r hr
              intro hin2 hrem2
              obtain ⟨hsv, hnum, hrem1, -⟩ := v2RowStep_fields ots (trim raw) st
              rw [hsv, hnum, hrem1]
              rw [hrem1] at hrem2
              exact ⟨by omega, Or.inl hlen⟩
          · rw [if_neg hg] at hr
            refine ih rest st ?_ r hr
            intro hin hrem
            obtain ⟨h1, h2⟩ := hinv hin hrem
            refine ⟨h1, ?_⟩
            rcases h2 with h2 | h2
            · exact Or.inl h2
            · exact absurd h2 (by simp)
        | some pr =>
          obtain ⟨f, remChars⟩ := pr
          simp only [hpr] at hr
          refine ih _ _ ?_ r hr
          intro hin hrem
          constructor
          · dsimp only
            exact le_refl _
          · dsimp only
            rcases collectSvIds_spec rest ((splitWSL remChars).map String.mk) f.num_sv with h | h
            · exact Or.inl h
            · exact Or.inr h

end rinex

/-- C8: the instrumented v2 machine agrees with the v2 branch of the data
loop, and starting from the initial (idle) data state, every recorded row
consumption event has `1 ≤ obs_lines_remaining ≤ num_sv ≤ sv_ids.length`, so
the positional lookup index `sv_ids.size() - obs_lines_remaining` neither
underflows nor reaches the list length. -/
theorem c8_v2_positional_lookup_safe :
    (∀ (ots : List String) (fuel : Nat) (lines : List String) (st : rinex.DataState),
      (rinex.v2LoopTr ots fuel lines st).1 = rinex.dataLoopF false ots fuel lines st) ∧
    (∀ (ots : List String) (lines : List String) (r : rinex.V2Row),
      r ∈ (rinex.v2LoopTr ots lines.length lines {}).2 →
      0 < r.rem ∧ r.rem ≤ r.num_sv ∧ r.num_sv ≤ (r.svLen : Int) ∧
      r.rem.toNat ≤ r.svLen ∧ r.svLen - r.rem.toNat < r.svLen) := by
  constructor
  · intro ots fuel lines st
    exact rinex.v2LoopTr_fst ots fuel lines st
  · intro ots lines r hr
    exact rinex.v2LoopTr_bounds ots lines.length lines {}
      (fun hin _ => by simp at hin) r hr

/-- C8 witness: the two-satellite v2 file records two row consumptions, both
within bounds. -/
theorem c8_witness :
    (⟨2, 2, 2⟩ : rinex.V2Row) ∈ (rinex.v2LoopTr ["L1", "L2"] c8File.length c8File {}).2 ∧
    (0 < (⟨2, 2, 2⟩ : rinex.V2Row).rem ∧
      (⟨2, 2, 2⟩ : rinex.V2Row).rem ≤ (⟨2, 2, 2⟩ : rinex.V2Row).num_sv ∧
      (⟨2, 2, 2⟩ : rinex.V2Row).num_sv ≤ ((⟨2, 2, 2⟩ : rinex.V2Row).svLen : Int) ∧
      (⟨2, 2, 2⟩ : rinex.V2Row).rem.toNat ≤ (⟨2, 2, 2⟩ : rinex.V2Row).svLen ∧
      (⟨2, 2, 2⟩ : rinex.V2Row).svLen - (⟨2, 2, 2⟩ : rinex.V2Row).rem.toNat <
        (⟨2, 2, 2⟩ : rinex.V2Row).svLen) :=
  ⟨by decide, c8_v2_positional_lookup_safe.2 ["L1", "L2"] c8File ⟨2, 2, 2⟩ (by decide)⟩
